import Mathlib

/-!
Shallow embedding of the nRF24L01 driver (`src/src/lib.rs`).

The driver talks to the radio chip through three fallible collaborators:
an SPI bus (half-duplex `write`, duplex `transfer`) and two GPIO output
lines, chip-select (`csn`) and chip-enable (`ce`).  We model an execution
as explicit state passing: the state carries the driver's own fields
(`channel`, `payload_size`, `tx_power_status`) together with the
observable world (a primitive-operation counter `t`, the level of the two
pins, and the trace of successful bus/GPIO events).  An environment
oracle decides, per primitive operation index, whether that operation
succeeds, and which bytes a duplex transfer reads back.
-/

namespace NRF24L01

/-- The driver's error type (`Error<E>` in the source, with the SPI
payload `E` abstracted away). -/
inductive Error where
  | lateCollision
  | spi
  | gpio
deriving DecidableEq, Repr

/-- The two GPIO output lines owned by the driver. -/
inductive Pin where
  | csn
  | ce
deriving DecidableEq, Repr

/-- An observable event: a successful GPIO level change, or an SPI
exchange.  SPI events record the level of chip-select at the moment the
exchange is issued (the source drives `csn` low to frame a transaction). -/
inductive Ev where
  | gpio (pin : Pin) (level : Bool)
  | write (csnLevel : Bool) (data : List Nat)
  | transfer (csnLevel : Bool) (sent : List Nat) (received : List Nat)
deriving DecidableEq, Repr

/-- Outcome of running a driver operation: normal return, an `Error`
return, a Rust panic (out-of-bounds slice in `get_data`), or exhaustion
of the fuel bounding the unbounded poll loop in `send`. -/
inductive Outcome (α : Type) where
  | ok (a : α)
  | err (e : Error)
  | panicked
  | spin
deriving DecidableEq, Repr

/-- Execution state: the driver struct's own mutable fields plus the
observable world (primitive-op counter, pin levels, event trace). -/
structure St where
  channel : Nat
  payload_size : Nat
  tx_power_status : Bool
  t : Nat
  csn : Bool
  ce : Bool
  trace : List Ev
deriving DecidableEq, Repr

/-- Environment oracle: `ok t` tells whether the `t`-th primitive
operation (GPIO set or SPI write/transfer) succeeds, and `read t j` is
the `j`-th byte read back by a duplex transfer issued as the `t`-th
primitive operation. -/
structure Env where
  ok : Nat → Bool
  read : Nat → Nat → Nat

/-- Driver computations: explicit state passing with short-circuit on
error, panic and fuel exhaustion. -/
def M (α : Type) : Type := St → Outcome α × St

def M.pure {α : Type} (a : α) : M α := fun s => (Outcome.ok a, s)

def M.bind {α β : Type} (m : M α) (f : α → M β) : M β := fun s =>
  match m s with
  | (Outcome.ok a, s1) => f a s1
  | (Outcome.err e, s1) => (Outcome.err e, s1)
  | (Outcome.panicked, s1) => (Outcome.panicked, s1)
  | (Outcome.spin, s1) => (Outcome.spin, s1)

instance : Monad M where
  pure := M.pure
  bind := M.bind

/-- Modelled from the spec: the register address table of the missing
`constants.rs` module ("register addresses (config, status, RF channel,
RX/TX address registers, payload-width registers, FIFO status, feature
register, dynamic-payload-enable register)"), with the chip's standard
addresses. -/
def memoryTable : Unit := ()

namespace Memory

def CONFIG : Nat := 0x00
def STATUS : Nat := 0x07
def RF_CH : Nat := 0x05
def RX_ADDR_P0 : Nat := 0x0A
def RX_ADDR_P1 : Nat := 0x0B
def TX_ADDR : Nat := 0x10
def RX_PW_P0 : Nat := 0x11
def RX_PW_P1 : Nat := 0x12
def FIFO_STATUS : Nat := 0x17
def DYN_PD : Nat := 0x1C
def FEATURE : Nat := 0x1D

end Memory

/-- Modelled from the spec: the instruction opcode table of the missing
`constants.rs` module ("instruction opcodes (read-register,
write-register with register-address mask, flush-TX, flush-RX,
write-TX-payload, read-RX-payload, read-RX-payload-width)"). -/
def instructionTable : Unit := ()

namespace Instruction

def R_REGISTER : Nat := 0x00
def W_REGISTER : Nat := 0x20
def REGISTER_MASK : Nat := 0x1F
def R_RX_PAYLOAD : Nat := 0x61
def W_TX_PAYLOAD : Nat := 0xA0
def FLUSH_TX : Nat := 0xE1
def FLUSH_RX : Nat := 0xE2
def R_RX_PL_WID : Nat := 0x60

end Instruction

/-- Modelled from the spec: the bit-position table of the missing
`constants.rs` module ("bit positions within those registers (power-up,
primary-receive-mode, TX-data-sent, max-retransmit, RX-data-ready,
RX-FIFO-empty, dynamic-payload-enable bits for pipes 0/1)"). -/
def bitMnemonicTable : Unit := ()

namespace BitMnemonic

def PRIM_RX : Nat := 0
def PWR_UP : Nat := 1
def EN_CRC : Nat := 3
def MAX_RT : Nat := 4
def TX_DS : Nat := 5
def RX_DR : Nat := 6
def RX_EMPTY : Nat := 0
def EN_DPL : Nat := 2
def DPL_P0 : Nat := 0
def DPL_P1 : Nat := 1

end BitMnemonic

/-- Modelled from the spec: "A base configuration byte value is also
fixed" — the base (CRC-enabled, powered-down) configuration byte. -/
def MIRF_CONFIG : Nat := 1 <<< BitMnemonic.EN_CRC

/-- Modelled from the spec: address length constant ("3–5 byte radio
addresses"), the fixed 5-byte default. -/
def MIRF_ADDR_LEN : Nat := 5

/-- `self.csn.set_high()` / `self.csn.set_low()`: a fallible GPIO write
to the chip-select line.  A failed GPIO operation leaves the pin
unchanged and produces no event. -/
def csnSet (env : Env) (level : Bool) : M Unit := fun s =>
  if env.ok s.t then
    (Outcome.ok (), { s with
                      t := s.t + 1,
                      csn := level,
                      trace := s.trace ++ [Ev.gpio Pin.csn level] })
  else
    (Outcome.err Error.gpio, { s with t := s.t + 1 })

/-- `self.ce.set_high()` / `self.ce.set_low()`: a fallible GPIO write to
the chip-enable line. -/
def ceSet (env : Env) (level : Bool) : M Unit := fun s =>
  if env.ok s.t then
    (Outcome.ok (), { s with
                      t := s.t + 1,
                      ce := level,
                      trace := s.trace ++ [Ev.gpio Pin.ce level] })
  else
    (Outcome.err Error.gpio, { s with t := s.t + 1 })

/-- `self.spi.write(data)`: half-duplex SPI write of a byte sequence. -/
def spiWrite (env : Env) (data : List Nat) : M Unit := fun s =>
  if env.ok s.t then
    (Outcome.ok (), { s with
                      t := s.t + 1,
                      trace := s.trace ++ [Ev.write s.csn data] })
  else
    (Outcome.err Error.spi, { s with t := s.t + 1 })

/-- `self.spi.transfer(data)`: duplex SPI transfer; returns the bytes
read back (one per byte sent, chosen by the environment oracle). -/
def spiTransfer (env : Env) (data : List Nat) : M (List Nat) := fun s =>
  if env.ok s.t then
    let recv := (List.range data.length).map (env.read s.t)
    (Outcome.ok recv, { s with
                        t := s.t + 1,
                        trace := s.trace ++ [Ev.transfer s.csn data recv] })
  else
    (Outcome.err Error.spi, { s with t := s.t + 1 })

/-- Read of the driver field `self.channel`. -/
def getChannel : M Nat := fun s => (Outcome.ok s.channel, s)

/-- Read of the driver field `self.payload_size`. -/
def getPayloadSize : M Nat := fun s => (Outcome.ok s.payload_size, s)

/-- Read of the driver field `self.tx_power_status`. -/
def getTx : M Bool := fun s => (Outcome.ok s.tx_power_status, s)

/-- Assignment `self.tx_power_status = b`. -/
def setTx (b : Bool) : M Unit := fun s =>
  (Outcome.ok (), { s with tx_power_status := b })

/-- Dropping a `Result` without `?`, as the dynamic-payload branch of
`config` does: the computation runs (its state effects happen) but its
outcome, error or not, is discarded. -/
def dropResult {α : Type} (m : M α) : M Unit := fun s => (Outcome.ok (), (m s).2)

/-- `using_dynamic_payload(&self)`. -/
def using_dynamic_payload (s : St) : Bool := s.payload_size == 0

/-- `using_dynamic_payload` as a state read. -/
def usingDynamicPayloadM : M Bool := fun s =>
  (Outcome.ok (using_dynamic_payload s), s)

/-- `config_register(register, value)`: csn low, write the
write-instruction opcode, write the value byte, csn high. -/
def config_register (env : Env) (register : Nat) (value : Nat) : M Unit := do
  csnSet env false
  spiWrite env [Instruction.W_REGISTER ||| (Instruction.REGISTER_MASK &&& register)]
  spiWrite env [value]
  csnSet env true

/-- `read_register(register)`: csn low, write the read-instruction
opcode, duplex-transfer one byte, csn high. -/
def read_register (env : Env) (register : Nat) : M Nat := do
  csnSet env false
  spiWrite env [Instruction.R_REGISTER ||| (Instruction.REGISTER_MASK &&& register)]
  let buffer ← spiTransfer env [0]
  csnSet env true
  pure (buffer.headD 0)

/-- `write_register(register, value)`: multi-byte register write. -/
def write_register (env : Env) (register : Nat) (value : List Nat) : M Unit := do
  csnSet env false
  spiWrite env [Instruction.W_REGISTER ||| (Instruction.REGISTER_MASK &&& register)]
  spiWrite env value
  csnSet env true

/-- `power_down()`. -/
def power_down (env : Env) : M Unit := do
  ceSet env false
  config_register env Memory.CONFIG MIRF_CONFIG

/-- `power_up_rx()`. -/
def power_up_rx (env : Env) : M Unit := do
  setTx false
  ceSet env false
  config_register env Memory.CONFIG
    (MIRF_CONFIG ||| ((1 <<< BitMnemonic.PWR_UP) ||| (1 <<< BitMnemonic.PRIM_RX)))
  ceSet env true
  config_register env Memory.STATUS
    ((1 <<< BitMnemonic.TX_DS) ||| (1 <<< BitMnemonic.MAX_RT))

/-- `power_up_tx()`. -/
def power_up_tx (env : Env) : M Unit := do
  setTx true
  config_register env Memory.CONFIG
    (MIRF_CONFIG ||| ((1 <<< BitMnemonic.PWR_UP) ||| (0 <<< BitMnemonic.PRIM_RX)))

/-- `flush_rx()`. -/
def flush_rx (env : Env) : M Unit := do
  csnSet env false
  spiWrite env [Instruction.FLUSH_RX]
  csnSet env true

/-- `config()`.  Note: in the dynamic-payload branch the source drops
the two `Result`s (no `?`), which `dropResult` reproduces. -/
def config (env : Env) : M Unit := do
  let channel ← getChannel
  config_register env Memory.RF_CH channel
  let dyn ← usingDynamicPayloadM
  if dyn then
    dropResult (config_register env Memory.FEATURE (1 <<< BitMnemonic.EN_DPL))
    dropResult (config_register env Memory.DYN_PD
      ((1 <<< BitMnemonic.DPL_P0) ||| (1 <<< BitMnemonic.DPL_P1)))
  else
    let payload_size ← getPayloadSize
    config_register env Memory.RX_PW_P0 payload_size
    config_register env Memory.RX_PW_P1 payload_size
  power_up_rx env
  flush_rx env

/-- `set_raddr(addr)`. -/
def set_raddr (env : Env) (addr : List Nat) : M Unit := do
  ceSet env false
  write_register env Memory.RX_ADDR_P1 addr
  ceSet env true

/-- `set_taddr(addr)`. -/
def set_taddr (env : Env) (addr : List Nat) : M Unit := do
  write_register env Memory.RX_ADDR_P0 addr
  write_register env Memory.TX_ADDR addr

/-- `get_status()`. -/
def get_status (env : Env) : M Nat := read_register env Memory.STATUS

/-- The `while self.tx_power_status` poll loop of `send`, bounded by
fuel: exhausting the fuel while the flag is still set yields
`Outcome.spin`, marking an execution on which the source loops on. -/
def sendPoll (env : Env) : Nat → M Unit
  | 0 => fun s =>
      if s.tx_power_status then (Outcome.spin, s) else (Outcome.ok (), s)
  | n + 1 => do
      let flag ← getTx
      if flag then
        let status ← get_status env
        if status &&& ((1 <<< BitMnemonic.TX_DS) ||| (1 <<< BitMnemonic.MAX_RT)) ≠ 0 then
          setTx false
        else
          sendPoll env n
      else
        pure ()

/-- `send(data)`, with the poll loop bounded by `fuel`. -/
def send (env : Env) (fuel : Nat) (data : List Nat) : M Unit := do
  let _ ← get_status env
  sendPoll env fuel
  ceSet env false
  power_up_tx env
  csnSet env false
  spiWrite env [Instruction.FLUSH_TX]
  csnSet env true
  csnSet env false
  spiWrite env [Instruction.W_TX_PAYLOAD]
  spiWrite env data
  csnSet env true
  ceSet env true

/-- `is_sending()`. -/
def is_sending (env : Env) : M Bool := do
  let flag ← getTx
  if flag then
    let status ← get_status env
    if status &&& ((1 <<< BitMnemonic.TX_DS) ||| (1 <<< BitMnemonic.MAX_RT)) ≠ 0 then
      power_up_rx env
      pure false
    else
      pure true
  else
    pure false

/-- `rx_fifo_empty()`. -/
def rx_fifo_empty (env : Env) : M Bool := do
  let fifo_status ← read_register env Memory.FIFO_STATUS
  if fifo_status &&& (1 <<< BitMnemonic.RX_EMPTY) ≠ 0 then
    pure true
  else
    pure false

/-- `data_ready()`. -/
def data_ready (env : Env) : M Bool := do
  let status ← get_status env
  if status &&& (1 <<< BitMnemonic.RX_DR) ≠ 0 then
    pure true
  else
    let fifo_empty ← rx_fifo_empty env
    pure (!fifo_empty)

/-- `get_data(buf)`: the caller's buffer is passed in and the (count,
updated buffer) pair returned.  The slice `buf[0..payload_length]`
panics when the buffer is shorter than the payload length, after the
read-payload opcode has already been written. -/
def get_data (env : Env) (buf : List Nat) : M (Nat × List Nat) := do
  let dyn ← usingDynamicPayloadM
  let ps ← getPayloadSize
  let payload_length ←
    if dyn then do
      csnSet env false
      spiWrite env [Instruction.R_RX_PL_WID]
      let buffer ← spiTransfer env [0]
      csnSet env true
      pure (buffer.headD 0)
    else
      pure ps
  csnSet env false
  spiWrite env [Instruction.R_RX_PAYLOAD]
  if payload_length ≤ buf.length then do
    let received ← spiTransfer env (buf.take payload_length)
    csnSet env true
    config_register env Memory.STATUS (1 <<< BitMnemonic.RX_DR)
    pure (payload_length, received ++ buf.drop payload_length)
  else
    fun s => (Outcome.panicked, s)

/-- The state established by a successful `new(spi, csn, ce, channel,
payload_size)`: flag clear, chip-enable driven low, chip-select driven
high, empty trace. -/
def init (channel payload_size : Nat) : St :=
  { channel := channel, payload_size := payload_size, tx_power_status := false,
    t := 0, csn := true, ce := false, trace := [] }

/-- `init` with the transmitting flag set (a prior `send` unresolved). -/
def initTx (channel payload_size : Nat) : St :=
  { init channel payload_size with tx_power_status := true }

/-- The environment succeeds at every primitive operation. -/
def allOk (env : Env) : Prop := ∀ t, env.ok t = true

/-- Every SPI exchange in the trace was issued while chip-select was
low (i.e. inside a chip-select frame). -/
def wellFramed (tr : List Ev) : Bool :=
  tr.all fun e =>
    match e with
    | Ev.gpio _ _ => true
    | Ev.write c _ => !c
    | Ev.transfer c _ _ => !c

/-- Whether the trace contains any chip-enable event. -/
def hasCeEvent (tr : List Ev) : Bool :=
  tr.any fun e =>
    match e with
    | Ev.gpio Pin.ce _ => true
    | _ => false

/-- A computation that never changes the `channel` and `payload_size`
driver fields. -/
def preservesCfg {α : Type} (m : M α) : Prop :=
  ∀ s, ((m s).2.channel = s.channel ∧ (m s).2.payload_size = s.payload_size)

/-- An always-succeeding environment whose transfers read back zeros. -/
def okEnv : Env := { ok := fun _ => true, read := fun _ _ => 0 }

/-- Environment failing exactly the 6th primitive operation: in a
dynamic-payload `config` from `init`, that is the SPI write of the
FEATURE-register instruction byte. -/
def envFeatureFail : Env := { ok := fun t => decide (t ≠ 5), read := fun _ _ => 0 }

/-- Environment failing exactly the 2nd primitive operation: in a
`get_status` from `init`, that is the SPI write of the read-instruction
opcode, after chip-select was already driven low. -/
def envSpiFail1 : Env := { ok := fun t => decide (t ≠ 1), read := fun _ _ => 0 }

/-! ### Frame abbreviations for traces -/

/-- Trace of a successful `config_register register value`. -/
def wFrame (register value : Nat) : List Ev :=
  [Ev.gpio Pin.csn false,
   Ev.write false [Instruction.W_REGISTER ||| (Instruction.REGISTER_MASK &&& register)],
   Ev.write false [value],
   Ev.gpio Pin.csn true]

/-- Trace of a successful `read_register register` that read back `v`. -/
def rFrame (register v : Nat) : List Ev :=
  [Ev.gpio Pin.csn false,
   Ev.write false [Instruction.R_REGISTER ||| (Instruction.REGISTER_MASK &&& register)],
   Ev.transfer false [0] [v],
   Ev.gpio Pin.csn true]

/-- Trace of a successful multi-byte `write_register register value`. -/
def wmFrame (register : Nat) (value : List Nat) : List Ev :=
  [Ev.gpio Pin.csn false,
   Ev.write false [Instruction.W_REGISTER ||| (Instruction.REGISTER_MASK &&& register)],
   Ev.write false value,
   Ev.gpio Pin.csn true]

/-- Trace of a successful fixed-payload `config` from state `s`. -/
def configFixedTrace (s : St) : List Ev :=
  wFrame Memory.RF_CH s.channel ++
  wFrame Memory.RX_PW_P0 s.payload_size ++
  wFrame Memory.RX_PW_P1 s.payload_size ++
  [Ev.gpio Pin.ce false] ++
  wFrame Memory.CONFIG (MIRF_CONFIG |||
    ((1 <<< BitMnemonic.PWR_UP) ||| (1 <<< BitMnemonic.PRIM_RX))) ++
  [Ev.gpio Pin.ce true] ++
  wFrame Memory.STATUS ((1 <<< BitMnemonic.TX_DS) ||| (1 <<< BitMnemonic.MAX_RT)) ++
  [Ev.gpio Pin.csn false, Ev.write false [Instruction.FLUSH_RX], Ev.gpio Pin.csn true]

/-- Trace of a successful dynamic-payload `config` from state `s`. -/
def configDynTrace (s : St) : List Ev :=
  wFrame Memory.RF_CH s.channel ++
  wFrame Memory.FEATURE (1 <<< BitMnemonic.EN_DPL) ++
  wFrame Memory.DYN_PD ((1 <<< BitMnemonic.DPL_P0) ||| (1 <<< BitMnemonic.DPL_P1)) ++
  [Ev.gpio Pin.ce false] ++
  wFrame Memory.CONFIG (MIRF_CONFIG |||
    ((1 <<< BitMnemonic.PWR_UP) ||| (1 <<< BitMnemonic.PRIM_RX))) ++
  [Ev.gpio Pin.ce true] ++
  wFrame Memory.STATUS ((1 <<< BitMnemonic.TX_DS) ||| (1 <<< BitMnemonic.MAX_RT)) ++
  [Ev.gpio Pin.csn false, Ev.write false [Instruction.FLUSH_RX], Ev.gpio Pin.csn true]

/-- Chip-select is idle (high) in the final state and every SPI exchange
of the trace happened inside a chip-select-low frame. -/
def csnIdle {α : Type} (r : Outcome α × St) : Prop :=
  r.2.csn = true ∧ wellFramed r.2.trace = true

/-! ### Basic lemmas -/

@[simp] theorem bind_def {α β : Type} (m : M α) (f : α → M β) :
    (m >>= f) = M.bind m f := rfl

@[simp] theorem pure_def {α : Type} (a : α) : (Pure.pure a : M α) = M.pure a := rfl


/-! ### Behaviour of the primitives and register helpers under an
all-success environment -/

theorem rangeOne : List.range 1 = [0] := rfl

theorem csnSet_eq (env : Env) (h : allOk env) (b : Bool) (s : St) :
    csnSet env b s =
      (Outcome.ok (), { s with
                        t := s.t + 1,
                        csn := b,
                        trace := s.trace ++ [Ev.gpio Pin.csn b] }) := by
  simp [csnSet, h s.t]

theorem ceSet_eq (env : Env) (h : allOk env) (b : Bool) (s : St) :
    ceSet env b s =
      (Outcome.ok (), { s with
                        t := s.t + 1,
                        ce := b,
                        trace := s.trace ++ [Ev.gpio Pin.ce b] }) := by
  simp [ceSet, h s.t]

theorem spiWrite_eq (env : Env) (h : allOk env) (data : List Nat) (s : St) :
    spiWrite env data s =
      (Outcome.ok (), { s with
                        t := s.t + 1,
                        trace := s.trace ++ [Ev.write s.csn data] }) := by
  simp [spiWrite, h s.t]

theorem spiTransfer_eq (env : Env) (h : allOk env) (data : List Nat) (s : St) :
    spiTransfer env data s =
      (Outcome.ok ((List.range data.length).map (env.read s.t)),
       { s with
         t := s.t + 1,
         trace := s.trace ++
           [Ev.transfer s.csn data ((List.range data.length).map (env.read s.t))] }) := by
  simp [spiTransfer, h s.t]

theorem config_register_eq (env : Env) (h : allOk env)
    (register value : Nat) (s : St) :
    config_register env register value s =
      (Outcome.ok (), { s with
                        t := s.t + 4,
                        csn := true,
                        trace := s.trace ++ wFrame register value }) := by
  have ho : ∀ t, env.ok t = true := h
  simp [config_register, M.bind, csnSet, spiWrite, ho, wFrame]

theorem read_register_eq (env : Env) (h : allOk env) (register : Nat) (s : St) :
    read_register env register s =
      (Outcome.ok (env.read (s.t + 2) 0),
       { s with
         t := s.t + 4,
         csn := true,
         trace := s.trace ++ rFrame register (env.read (s.t + 2) 0) }) := by
  have ho : ∀ t, env.ok t = true := h
  simp [read_register, M.bind, M.pure, csnSet, spiWrite, spiTransfer, ho, rFrame,
    rangeOne, add_assoc]

theorem write_register_eq (env : Env) (h : allOk env)
    (register : Nat) (value : List Nat) (s : St) :
    write_register env register value s =
      (Outcome.ok (), { s with
                        t := s.t + 4,
                        csn := true,
                        trace := s.trace ++ wmFrame register value }) := by
  have ho : ∀ t, env.ok t = true := h
  simp [write_register, M.bind, csnSet, spiWrite, ho, wmFrame]

theorem get_status_eq (env : Env) (h : allOk env) (s : St) :
    get_status env s =
      (Outcome.ok (env.read (s.t + 2) 0),
       { s with
         t := s.t + 4,
         csn := true,
         trace := s.trace ++ rFrame Memory.STATUS (env.read (s.t + 2) 0) }) :=
  read_register_eq env h Memory.STATUS s

theorem flush_rx_eq (env : Env) (h : allOk env) (s : St) :
    flush_rx env s =
      (Outcome.ok (), { s with
                        t := s.t + 3,
                        csn := true,
                        trace := s.trace ++
                          [Ev.gpio Pin.csn false,
                           Ev.write false [Instruction.FLUSH_RX],
                           Ev.gpio Pin.csn true] }) := by
  have ho : ∀ t, env.ok t = true := h
  simp [flush_rx, M.bind, csnSet, spiWrite, ho]

theorem power_up_rx_eq (env : Env) (h : allOk env) (s : St) :
    power_up_rx env s =
      (Outcome.ok (), { s with
                        tx_power_status := false,
                        t := s.t + 10,
                        csn := true,
                        ce := true,
                        trace := s.trace ++
                          ([Ev.gpio Pin.ce false] ++
                           wFrame Memory.CONFIG (MIRF_CONFIG |||
                             ((1 <<< BitMnemonic.PWR_UP) ||| (1 <<< BitMnemonic.PRIM_RX))) ++
                           [Ev.gpio Pin.ce true] ++
                           wFrame Memory.STATUS
                             ((1 <<< BitMnemonic.TX_DS) ||| (1 <<< BitMnemonic.MAX_RT))) }) := by
  have ho : ∀ t, env.ok t = true := h
  simp [power_up_rx, M.bind, setTx, ceSet, csnSet, spiWrite, config_register, ho, wFrame,
    add_assoc]

theorem power_up_tx_eq (env : Env) (h : allOk env) (s : St) :
    power_up_tx env s =
      (Outcome.ok (), { s with
                        tx_power_status := true,
                        t := s.t + 4,
                        csn := true,
                        trace := s.trace ++
                          wFrame Memory.CONFIG (MIRF_CONFIG |||
                            ((1 <<< BitMnemonic.PWR_UP) ||| (0 <<< BitMnemonic.PRIM_RX))) }) := by
  have ho : ∀ t, env.ok t = true := h
  simp [power_up_tx, M.bind, setTx, csnSet, spiWrite, config_register, ho, wFrame, add_assoc]

theorem power_down_eq (env : Env) (h : allOk env) (s : St) :
    power_down env s =
      (Outcome.ok (), { s with
                        t := s.t + 5,
                        csn := true,
                        ce := false,
                        trace := s.trace ++
                          ([Ev.gpio Pin.ce false] ++ wFrame Memory.CONFIG MIRF_CONFIG) }) := by
  have ho : ∀ t, env.ok t = true := h
  simp [power_down, M.bind, ceSet, csnSet, spiWrite, config_register, ho, wFrame, add_assoc]

theorem set_raddr_eq (env : Env) (h : allOk env) (addr : List Nat) (s : St) :
    set_raddr env addr s =
      (Outcome.ok (), { s with
                        t := s.t + 6,
                        csn := true,
                        ce := true,
                        trace := s.trace ++
                          ([Ev.gpio Pin.ce false] ++
                           wmFrame Memory.RX_ADDR_P1 addr ++
                           [Ev.gpio Pin.ce true]) }) := by
  have ho : ∀ t, env.ok t = true := h
  simp [set_raddr, M.bind, ceSet, csnSet, spiWrite, write_register, ho, wmFrame, add_assoc]

theorem set_taddr_eq (env : Env) (h : allOk env) (addr : List Nat) (s : St) :
    set_taddr env addr s =
      (Outcome.ok (), { s with
                        t := s.t + 8,
                        csn := true,
                        trace := s.trace ++
                          (wmFrame Memory.RX_ADDR_P0 addr ++
                           wmFrame Memory.TX_ADDR addr) }) := by
  have ho : ∀ t, env.ok t = true := h
  simp [set_taddr, M.bind, csnSet, spiWrite, write_register, ho, wmFrame, add_assoc]

theorem rx_fifo_empty_eq (env : Env) (h : allOk env) (s : St) :
    rx_fifo_empty env s =
      (Outcome.ok (decide (env.read (s.t + 2) 0 &&&
        (1 <<< BitMnemonic.RX_EMPTY) ≠ 0)),
       { s with
         t := s.t + 4,
         csn := true,
         trace := s.trace ++ rFrame Memory.FIFO_STATUS (env.read (s.t + 2) 0) }) := by
  have ho : ∀ t, env.ok t = true := h
  simp [rx_fifo_empty, M.bind, M.pure, csnSet, spiWrite, spiTransfer, read_register, ho,
    rFrame, rangeOne, add_assoc]
  by_cases hb : env.read (s.t + 2) 0 &&& 1 <<< BitMnemonic.RX_EMPTY = 0 <;>
    simp [M.pure, hb]

theorem config_eq_fixed (env : Env) (h : allOk env) (s : St)
    (hp : s.payload_size ≠ 0) :
    config env s =
      (Outcome.ok (), { s with
                        tx_power_status := false,
                        t := s.t + 25,
                        csn := true,
                        ce := true,
                        trace := s.trace ++ configFixedTrace s }) := by
  have ho : ∀ t, env.ok t = true := h
  simp [config, M.bind, M.pure, getChannel, getPayloadSize, usingDynamicPayloadM,
    using_dynamic_payload, hp, setTx, ceSet, csnSet, spiWrite, config_register,
    power_up_rx, flush_rx, ho, wFrame, configFixedTrace, add_assoc]

theorem config_eq_dyn (env : Env) (h : allOk env) (s : St)
    (hp : s.payload_size = 0) :
    config env s =
      (Outcome.ok (), { s with
                        tx_power_status := false,
                        t := s.t + 25,
                        csn := true,
                        ce := true,
                        trace := s.trace ++ configDynTrace s }) := by
  have ho : ∀ t, env.ok t = true := h
  simp [config, M.bind, M.pure, getChannel, getPayloadSize, usingDynamicPayloadM,
    using_dynamic_payload, hp, dropResult, setTx, ceSet, csnSet, spiWrite,
    config_register, power_up_rx, flush_rx, ho, wFrame, configDynTrace, add_assoc]

theorem get_data_eq_fixed (env : Env) (h : allOk env) (buf : List Nat) (s : St)
    (hp : s.payload_size ≠ 0) (hb : s.payload_size ≤ buf.length) :
    get_data env buf s =
      (Outcome.ok (s.payload_size,
         (List.range s.payload_size).map (env.read (s.t + 2)) ++
           buf.drop s.payload_size),
       { s with
         t := s.t + 8,
         csn := true,
         trace := s.trace ++
           ([Ev.gpio Pin.csn false,
             Ev.write false [Instruction.R_RX_PAYLOAD],
             Ev.transfer false (buf.take s.payload_size)
               ((List.range s.payload_size).map (env.read (s.t + 2))),
             Ev.gpio Pin.csn true] ++
            wFrame Memory.STATUS (1 <<< BitMnemonic.RX_DR)) }) := by
  have ho : ∀ t, env.ok t = true := h
  simp [get_data, M.bind, M.pure, usingDynamicPayloadM, using_dynamic_payload,
    getPayloadSize, hp, hb, csnSet, spiWrite, spiTransfer, config_register, ho,
    wFrame, add_assoc, List.length_take, Nat.min_eq_left hb]

theorem get_data_eq_fixed_panic (env : Env) (h : allOk env) (buf : List Nat) (s : St)
    (hp : s.payload_size ≠ 0) (hb : buf.length < s.payload_size) :
    get_data env buf s =
      (Outcome.panicked,
       { s with
         t := s.t + 2,
         csn := false,
         trace := s.trace ++
           [Ev.gpio Pin.csn false,
            Ev.write false [Instruction.R_RX_PAYLOAD]] }) := by
  have ho : ∀ t, env.ok t = true := h
  have hnb : ¬ (s.payload_size ≤ buf.length) := by omega
  simp [get_data, M.bind, M.pure, usingDynamicPayloadM, using_dynamic_payload,
    getPayloadSize, hp, hnb, csnSet, spiWrite, ho, add_assoc]

theorem get_data_eq_dyn (env : Env) (h : allOk env) (buf : List Nat) (s : St)
    (hp : s.payload_size = 0) (hb : env.read (s.t + 2) 0 ≤ buf.length) :
    get_data env buf s =
      (Outcome.ok (env.read (s.t + 2) 0,
         (List.range (env.read (s.t + 2) 0)).map (env.read (s.t + 6)) ++
           buf.drop (env.read (s.t + 2) 0)),
       { s with
         t := s.t + 12,
         csn := true,
         trace := s.trace ++
           ([Ev.gpio Pin.csn false,
             Ev.write false [Instruction.R_RX_PL_WID],
             Ev.transfer false [0] [env.read (s.t + 2) 0],
             Ev.gpio Pin.csn true,
             Ev.gpio Pin.csn false,
             Ev.write false [Instruction.R_RX_PAYLOAD],
             Ev.transfer false (buf.take (env.read (s.t + 2) 0))
               ((List.range (env.read (s.t + 2) 0)).map (env.read (s.t + 6))),
             Ev.gpio Pin.csn true] ++
            wFrame Memory.STATUS (1 <<< BitMnemonic.RX_DR)) }) := by
  have ho : ∀ t, env.ok t = true := h
  simp [get_data, M.bind, M.pure, usingDynamicPayloadM, using_dynamic_payload,
    getPayloadSize, hp, hb, csnSet, spiWrite, spiTransfer, config_register, ho,
    wFrame, rangeOne, add_assoc, List.length_take, Nat.min_eq_left hb]

theorem get_data_eq_dyn_panic (env : Env) (h : allOk env) (buf : List Nat) (s : St)
    (hp : s.payload_size = 0) (hb : buf.length < env.read (s.t + 2) 0) :
    get_data env buf s =
      (Outcome.panicked,
       { s with
         t := s.t + 6,
         csn := false,
         trace := s.trace ++
           [Ev.gpio Pin.csn false,
            Ev.write false [Instruction.R_RX_PL_WID],
            Ev.transfer false [0] [env.read (s.t + 2) 0],
            Ev.gpio Pin.csn true,
            Ev.gpio Pin.csn false,
            Ev.write false [Instruction.R_RX_PAYLOAD]] }) := by
  have ho : ∀ t, env.ok t = true := h
  have hnb : ¬ (env.read (s.t + 2) 0 ≤ buf.length) := by omega
  simp [get_data, M.bind, M.pure, usingDynamicPayloadM, using_dynamic_payload,
    getPayloadSize, hp, hnb, csnSet, spiWrite, spiTransfer, ho, rangeOne, add_assoc]

theorem is_sending_eq_idle (env : Env) (s : St) (hflag : s.tx_power_status = false) :
    is_sending env s = (Outcome.ok false, s) := by
  simp [is_sending, M.bind, M.pure, getTx, hflag]

theorem is_sending_eq_resolved (env : Env) (h : allOk env) (s : St)
    (hflag : s.tx_power_status = true)
    (hbit : env.read (s.t + 2) 0 &&&
      ((1 <<< BitMnemonic.TX_DS) ||| (1 <<< BitMnemonic.MAX_RT)) ≠ 0) :
    is_sending env s =
      (Outcome.ok false,
       { s with
         tx_power_status := false,
         t := s.t + 14,
         csn := true,
         ce := true,
         trace := s.trace ++
           (rFrame Memory.STATUS (env.read (s.t + 2) 0) ++
            ([Ev.gpio Pin.ce false] ++
             wFrame Memory.CONFIG (MIRF_CONFIG |||
               ((1 <<< BitMnemonic.PWR_UP) ||| (1 <<< BitMnemonic.PRIM_RX))) ++
             [Ev.gpio Pin.ce true] ++
             wFrame Memory.STATUS
               ((1 <<< BitMnemonic.TX_DS) ||| (1 <<< BitMnemonic.MAX_RT)))) }) := by
  simp [is_sending, M.bind, M.pure, getTx, hflag, get_status_eq env h, hbit,
    power_up_rx_eq env h, add_assoc]

theorem is_sending_eq_inflight (env : Env) (h : allOk env) (s : St)
    (hflag : s.tx_power_status = true)
    (hbit : env.read (s.t + 2) 0 &&&
      ((1 <<< BitMnemonic.TX_DS) ||| (1 <<< BitMnemonic.MAX_RT)) = 0) :
    is_sending env s =
      (Outcome.ok true,
       { s with
         t := s.t + 4,
         csn := true,
         trace := s.trace ++ rFrame Memory.STATUS (env.read (s.t + 2) 0) }) := by
  simp [is_sending, M.bind, M.pure, getTx, hflag, get_status_eq env h, hbit]

theorem data_ready_eq_rxdr (env : Env) (h : allOk env) (s : St)
    (hbit : env.read (s.t + 2) 0 &&& (1 <<< BitMnemonic.RX_DR) ≠ 0) :
    data_ready env s =
      (Outcome.ok true,
       { s with
         t := s.t + 4,
         csn := true,
         trace := s.trace ++ rFrame Memory.STATUS (env.read (s.t + 2) 0) }) := by
  simp [data_ready, M.bind, M.pure, get_status_eq env h, hbit]

theorem data_ready_eq_fifo (env : Env) (h : allOk env) (s : St)
    (hbit : env.read (s.t + 2) 0 &&& (1 <<< BitMnemonic.RX_DR) = 0) :
    data_ready env s =
      (Outcome.ok (decide (env.read (s.t + 6) 0 &&& (1 <<< BitMnemonic.RX_EMPTY) = 0)),
       { s with
         t := s.t + 8,
         csn := true,
         trace := s.trace ++
           (rFrame Memory.STATUS (env.read (s.t + 2) 0) ++
            rFrame Memory.FIFO_STATUS (env.read (s.t + 6) 0)) }) := by
  simp [data_ready, M.bind, M.pure, get_status_eq env h, hbit,
    rx_fifo_empty_eq env h, add_assoc]

theorem sendPoll_succ_step (env : Env) (h : allOk env) (n : Nat) (s : St)
    (hflag : s.tx_power_status = true)
    (hbit : env.read (s.t + 2) 0 &&&
      ((1 <<< BitMnemonic.TX_DS) ||| (1 <<< BitMnemonic.MAX_RT)) = 0) :
    sendPoll env (n + 1) s =
      sendPoll env n
        { s with
          t := s.t + 4,
          csn := true,
          trace := s.trace ++ rFrame Memory.STATUS (env.read (s.t + 2) 0) } := by
  simp [sendPoll, M.bind, M.pure, getTx, hflag, get_status_eq env h, hbit]

theorem sendPoll_succ_done (env : Env) (h : allOk env) (n : Nat) (s : St)
    (hflag : s.tx_power_status = true)
    (hbit : env.read (s.t + 2) 0 &&&
      ((1 <<< BitMnemonic.TX_DS) ||| (1 <<< BitMnemonic.MAX_RT)) ≠ 0) :
    sendPoll env (n + 1) s =
      (Outcome.ok (),
       { s with
         tx_power_status := false,
         t := s.t + 4,
         csn := true,
         trace := s.trace ++ rFrame Memory.STATUS (env.read (s.t + 2) 0) }) := by
  simp [sendPoll, M.bind, M.pure, getTx, setTx, hflag, get_status_eq env h, hbit]

theorem sendPoll_spin_iff (env : Env) (h : allOk env) :
    ∀ (fuel : Nat) (s : St), s.tx_power_status = true →
      ((sendPoll env fuel s).1 = Outcome.spin ↔
        ∀ k < fuel, env.read (s.t + (4 * k + 2)) 0 &&&
          ((1 <<< BitMnemonic.TX_DS) ||| (1 <<< BitMnemonic.MAX_RT)) = 0) := by
  intro fuel
  induction fuel with
  | zero =>
    intro s hflag
    simp [sendPoll, hflag]
  | succ n ih =>
    intro s hflag
    by_cases hbit : env.read (s.t + 2) 0 &&&
        ((1 <<< BitMnemonic.TX_DS) ||| (1 <<< BitMnemonic.MAX_RT)) = 0
    · rw [sendPoll_succ_step env h n s hflag hbit]
      rw [ih { s with
               t := s.t + 4,
               csn := true,
               trace := s.trace ++ rFrame Memory.STATUS (env.read (s.t + 2) 0) } hflag]
      constructor
      · intro ha k hk
        cases k with
        | zero => simpa using hbit
        | succ j =>
          have hj : j < n := by omega
          have hx := ha j hj
          have harith : s.t + 4 + (4 * j + 2) = s.t + (4 * (j + 1) + 2) := by ring
          simp only [St.t] at hx
          rw [harith] at hx
          exact hx
      · intro ha k hk
        have hx := ha (k + 1) (by omega)
        have harith : s.t + (4 * (k + 1) + 2) = s.t + 4 + (4 * k + 2) := by ring
        rw [harith] at hx
        simpa using hx
    · have hnall : ¬ (∀ k < n + 1, env.read (s.t + (4 * k + 2)) 0 &&&
          ((1 <<< BitMnemonic.TX_DS) ||| (1 <<< BitMnemonic.MAX_RT)) = 0) := by
        intro hall
        exact hbit (by simpa using hall 0 (by omega))
      simp [sendPoll_succ_done env h n s hflag hbit, hnall]

theorem sendPoll_ok_flag (env : Env) (h : allOk env) :
    ∀ (fuel : Nat) (s : St), s.tx_power_status = true →
      (sendPoll env fuel s).1 = Outcome.ok () →
      (sendPoll env fuel s).2.tx_power_status = false := by
  intro fuel
  induction fuel with
  | zero =>
    intro s hflag
    simp [sendPoll, hflag]
  | succ n ih =>
    intro s hflag
    by_cases hbit : env.read (s.t + 2) 0 &&&
        ((1 <<< BitMnemonic.TX_DS) ||| (1 <<< BitMnemonic.MAX_RT)) = 0
    · rw [sendPoll_succ_step env h n s hflag hbit]
      exact ih _ hflag
    · rw [sendPoll_succ_done env h n s hflag hbit]
      intro
      rfl

theorem wellFramed_append (a b : List Ev) :
    wellFramed (a ++ b) = (wellFramed a && wellFramed b) := by
  simp [wellFramed]

theorem wellFramed_wFrame (r v : Nat) : wellFramed (wFrame r v) = true := by
  simp [wellFramed, wFrame]

theorem wellFramed_rFrame (r v : Nat) : wellFramed (rFrame r v) = true := by
  simp [wellFramed, rFrame]

theorem wellFramed_wmFrame (r : Nat) (v : List Nat) :
    wellFramed (wmFrame r v) = true := by
  simp [wellFramed, wmFrame]

theorem sendPoll_inv (env : Env) (h : allOk env) :
    ∀ (fuel : Nat) (s : St), s.csn = true → wellFramed s.trace = true →
      (((sendPoll env fuel s).1 = Outcome.ok () ∨
        (sendPoll env fuel s).1 = Outcome.spin) ∧
       (sendPoll env fuel s).2.csn = true ∧
       wellFramed (sendPoll env fuel s).2.trace = true) := by
  intro fuel
  induction fuel with
  | zero =>
    intro s hcsn htr
    by_cases hflag : s.tx_power_status = true <;> simp [sendPoll, hflag, hcsn, htr]
  | succ n ih =>
    intro s hcsn htr
    by_cases hflag : s.tx_power_status = true
    · by_cases hbit : env.read (s.t + 2) 0 &&&
          ((1 <<< BitMnemonic.TX_DS) ||| (1 <<< BitMnemonic.MAX_RT)) = 0
      · rw [sendPoll_succ_step env h n s hflag hbit]
        exact ih _ rfl (by simp [wellFramed_append, htr, wellFramed_rFrame])
      · rw [sendPoll_succ_done env h n s hflag hbit]
        simp [wellFramed_append, htr, wellFramed_rFrame]
    · have hflag0 : s.tx_power_status = false := by
        cases hb : s.tx_power_status
        · rfl
        · exact absurd hb hflag
      simp [sendPoll, M.bind, M.pure, getTx, hflag0, hcsn, htr]

/-! ### Preservation of the `channel` and `payload_size` driver fields -/

theorem preservesCfg_pure {α : Type} (a : α) : preservesCfg (M.pure a) := by
  intro s
  simp [M.pure]

theorem preservesCfg_bind {α β : Type} {m : M α} {f : α → M β}
    (hm : preservesCfg m) (hf : ∀ a, preservesCfg (f a)) :
    preservesCfg (M.bind m f) := by
  intro s
  have h1 := hm s
  rcases hms : m s with ⟨o, s1⟩
  rw [hms] at h1
  cases o with
  | ok a =>
    have h2 := (hf a) s1
    simp only [M.bind, hms]
    exact ⟨h2.1.trans h1.1, h2.2.trans h1.2⟩
  | err e =>
    simp only [M.bind, hms]
    exact h1
  | panicked =>
    simp only [M.bind, hms]
    exact h1
  | spin =>
    simp only [M.bind, hms]
    exact h1

theorem preservesCfg_ite {α : Type} (c : Prop) [Decidable c] {m1 m2 : M α}
    (h1 : preservesCfg m1) (h2 : preservesCfg m2) :
    preservesCfg (if c then m1 else m2) := by
  by_cases hc : c
  · simpa [hc] using h1
  · simpa [hc] using h2

theorem preservesCfg_csnSet (env : Env) (b : Bool) : preservesCfg (csnSet env b) := by
  intro s
  by_cases hc : env.ok s.t = true <;> simp [csnSet, hc]

theorem preservesCfg_ceSet (env : Env) (b : Bool) : preservesCfg (ceSet env b) := by
  intro s
  by_cases hc : env.ok s.t = true <;> simp [ceSet, hc]

theorem preservesCfg_spiWrite (env : Env) (d : List Nat) :
    preservesCfg (spiWrite env d) := by
  intro s
  by_cases hc : env.ok s.t = true <;> simp [spiWrite, hc]

theorem preservesCfg_spiTransfer (env : Env) (d : List Nat) :
    preservesCfg (spiTransfer env d) := by
  intro s
  by_cases hc : env.ok s.t = true <;> simp [spiTransfer, hc]

theorem preservesCfg_getChannel : preservesCfg getChannel := by
  intro s
  simp [getChannel]

theorem preservesCfg_getPayloadSize : preservesCfg getPayloadSize := by
  intro s
  simp [getPayloadSize]

theorem preservesCfg_getTx : preservesCfg getTx := by
  intro s
  simp [getTx]

theorem preservesCfg_usingDynamicPayloadM : preservesCfg usingDynamicPayloadM := by
  intro s
  simp [usingDynamicPayloadM]

theorem preservesCfg_setTx (b : Bool) : preservesCfg (setTx b) := by
  intro s
  simp [setTx]

theorem preservesCfg_dropResult {α : Type} {m : M α} (hm : preservesCfg m) :
    preservesCfg (dropResult m) := by
  intro s
  simpa [dropResult] using hm s

theorem preservesCfg_config_register (env : Env) (r v : Nat) :
    preservesCfg (config_register env r v) := by
  unfold config_register
  simp only [bind_def]
  exact preservesCfg_bind (preservesCfg_csnSet env false) fun _ =>
    preservesCfg_bind (preservesCfg_spiWrite env _) fun _ =>
    preservesCfg_bind (preservesCfg_spiWrite env _) fun _ =>
    preservesCfg_csnSet env true

theorem preservesCfg_read_register (env : Env) (r : Nat) :
    preservesCfg (read_register env r) := by
  unfold read_register
  simp only [bind_def, pure_def]
  exact preservesCfg_bind (preservesCfg_csnSet env false) fun _ =>
    preservesCfg_bind (preservesCfg_spiWrite env _) fun _ =>
    preservesCfg_bind (preservesCfg_spiTransfer env _) fun _ =>
    preservesCfg_bind (preservesCfg_csnSet env true) fun _ =>
    preservesCfg_pure _

theorem preservesCfg_write_register (env : Env) (r : Nat) (v : List Nat) :
    preservesCfg (write_register env r v) := by
  unfold write_register
  simp only [bind_def]
  exact preservesCfg_bind (preservesCfg_csnSet env false) fun _ =>
    preservesCfg_bind (preservesCfg_spiWrite env _) fun _ =>
    preservesCfg_bind (preservesCfg_spiWrite env _) fun _ =>
    preservesCfg_csnSet env true

theorem preservesCfg_power_down (env : Env) : preservesCfg (power_down env) := by
  unfold power_down
  simp only [bind_def]
  exact preservesCfg_bind (preservesCfg_ceSet env false) fun _ =>
    preservesCfg_config_register env _ _

theorem preservesCfg_power_up_rx (env : Env) : preservesCfg (power_up_rx env) := by
  unfold power_up_rx
  simp only [bind_def]
  exact preservesCfg_bind (preservesCfg_setTx false) fun _ =>
    preservesCfg_bind (preservesCfg_ceSet env false) fun _ =>
    preservesCfg_bind (preservesCfg_config_register env _ _) fun _ =>
    preservesCfg_bind (preservesCfg_ceSet env true) fun _ =>
    preservesCfg_config_register env _ _

theorem preservesCfg_power_up_tx (env : Env) : preservesCfg (power_up_tx env) := by
  unfold power_up_tx
  simp only [bind_def]
  exact preservesCfg_bind (preservesCfg_setTx true) fun _ =>
    preservesCfg_config_register env _ _

theorem preservesCfg_flush_rx (env : Env) : preservesCfg (flush_rx env) := by
  unfold flush_rx
  simp only [bind_def]
  exact preservesCfg_bind (preservesCfg_csnSet env false) fun _ =>
    preservesCfg_bind (preservesCfg_spiWrite env _) fun _ =>
    preservesCfg_csnSet env true

theorem preservesCfg_config (env : Env) : preservesCfg (config env) := by
  unfold config
  simp only [bind_def]
  refine preservesCfg_bind preservesCfg_getChannel fun _ => ?_
  refine preservesCfg_bind (preservesCfg_config_register env _ _) fun _ => ?_
  refine preservesCfg_bind preservesCfg_usingDynamicPayloadM fun dyn => ?_
  refine preservesCfg_ite _ ?_ ?_
  · exact preservesCfg_bind
      (preservesCfg_dropResult (preservesCfg_config_register env _ _)) fun _ =>
      preservesCfg_bind
        (preservesCfg_dropResult (preservesCfg_config_register env _ _)) fun _ =>
      preservesCfg_bind (preservesCfg_power_up_rx env) fun _ =>
      preservesCfg_flush_rx env
  · exact preservesCfg_bind preservesCfg_getPayloadSize fun _ =>
      preservesCfg_bind (preservesCfg_config_register env _ _) fun _ =>
      preservesCfg_bind (preservesCfg_config_register env _ _) fun _ =>
      preservesCfg_bind (preservesCfg_power_up_rx env) fun _ =>
      preservesCfg_flush_rx env

theorem preservesCfg_set_raddr (env : Env) (addr : List Nat) :
    preservesCfg (set_raddr env addr) := by
  unfold set_raddr
  simp only [bind_def]
  exact preservesCfg_bind (preservesCfg_ceSet env false) fun _ =>
    preservesCfg_bind (preservesCfg_write_register env _ _) fun _ =>
    preservesCfg_ceSet env true

theorem preservesCfg_set_taddr (env : Env) (addr : List Nat) :
    preservesCfg (set_taddr env addr) := by
  unfold set_taddr
  simp only [bind_def]
  exact preservesCfg_bind (preservesCfg_write_register env _ _) fun _ =>
    preservesCfg_write_register env _ _

theorem preservesCfg_get_status (env : Env) : preservesCfg (get_status env) :=
  preservesCfg_read_register env Memory.STATUS

theorem preservesCfg_sendPoll (env : Env) :
    ∀ fuel, preservesCfg (sendPoll env fuel) := by
  intro fuel
  induction fuel with
  | zero =>
    intro s
    by_cases hflag : s.tx_power_status = true <;> simp [sendPoll, hflag]
  | succ n ih =>
    show preservesCfg (sendPoll env (n + 1))
    unfold sendPoll
    simp only [bind_def, pure_def]
    refine preservesCfg_bind preservesCfg_getTx fun flag => ?_
    refine preservesCfg_ite _ ?_ (preservesCfg_pure _)
    refine preservesCfg_bind (preservesCfg_get_status env) fun status => ?_
    exact preservesCfg_ite _ (preservesCfg_setTx false) ih

theorem preservesCfg_send (env : Env) (fuel : Nat) (data : List Nat) :
    preservesCfg (send env fuel data) := by
  unfold send
  simp only [bind_def]
  refine preservesCfg_bind (preservesCfg_get_status env) fun _ => ?_
  refine preservesCfg_bind (preservesCfg_sendPoll env fuel) fun _ => ?_
  refine preservesCfg_bind (preservesCfg_ceSet env false) fun _ => ?_
  refine preservesCfg_bind (preservesCfg_power_up_tx env) fun _ => ?_
  refine preservesCfg_bind (preservesCfg_csnSet env false) fun _ => ?_
  refine preservesCfg_bind (preservesCfg_spiWrite env _) fun _ => ?_
  refine preservesCfg_bind (preservesCfg_csnSet env true) fun _ => ?_
  refine preservesCfg_bind (preservesCfg_csnSet env false) fun _ => ?_
  refine preservesCfg_bind (preservesCfg_spiWrite env _) fun _ => ?_
  refine preservesCfg_bind (preservesCfg_spiWrite env _) fun _ => ?_
  refine preservesCfg_bind (preservesCfg_csnSet env true) fun _ => ?_
  exact preservesCfg_ceSet env true

theorem preservesCfg_is_sending (env : Env) : preservesCfg (is_sending env) := by
  unfold is_sending
  simp only [bind_def, pure_def]
  refine preservesCfg_bind preservesCfg_getTx fun flag => ?_
  refine preservesCfg_ite _ ?_ (preservesCfg_pure _)
  refine preservesCfg_bind (preservesCfg_get_status env) fun status => ?_
  refine preservesCfg_ite _ ?_ (preservesCfg_pure _)
  exact preservesCfg_bind (preservesCfg_power_up_rx env) fun _ => preservesCfg_pure _

theorem preservesCfg_rx_fifo_empty (env : Env) : preservesCfg (rx_fifo_empty env) := by
  unfold rx_fifo_empty
  simp only [bind_def, pure_def]
  refine preservesCfg_bind (preservesCfg_read_register env _) fun v => ?_
  exact preservesCfg_ite _ (preservesCfg_pure _) (preservesCfg_pure _)

theorem preservesCfg_data_ready (env : Env) : preservesCfg (data_ready env) := by
  unfold data_ready
  simp only [bind_def, pure_def]
  refine preservesCfg_bind (preservesCfg_get_status env) fun v => ?_
  refine preservesCfg_ite _ (preservesCfg_pure _) ?_
  exact preservesCfg_bind (preservesCfg_rx_fifo_empty env) fun _ => preservesCfg_pure _

theorem preservesCfg_get_data (env : Env) (buf : List Nat) :
    preservesCfg (get_data env buf) := by
  unfold get_data
  simp only [bind_def, pure_def]
  refine preservesCfg_bind preservesCfg_usingDynamicPayloadM fun dyn => ?_
  refine preservesCfg_bind preservesCfg_getPayloadSize fun ps => ?_
  have hrest : ∀ y : Nat, preservesCfg
      ((csnSet env false).bind fun _ =>
        (spiWrite env [Instruction.R_RX_PAYLOAD]).bind fun _ =>
          if y ≤ buf.length then
            (spiTransfer env (List.take y buf)).bind fun received =>
              (csnSet env true).bind fun _ =>
                (config_register env Memory.STATUS (1 <<< BitMnemonic.RX_DR)).bind
                  fun _ => M.pure (y, received ++ List.drop y buf)
          else fun s => (Outcome.panicked, s)) := by
    intro y
    refine preservesCfg_bind (preservesCfg_csnSet env false) fun _ => ?_
    refine preservesCfg_bind (preservesCfg_spiWrite env _) fun _ => ?_
    refine preservesCfg_ite _ ?_ ?_
    · refine preservesCfg_bind (preservesCfg_spiTransfer env _) fun _ => ?_
      refine preservesCfg_bind (preservesCfg_csnSet env true) fun _ => ?_
      exact preservesCfg_bind (preservesCfg_config_register env _ _) fun _ =>
        preservesCfg_pure _
    · intro s
      exact ⟨rfl, rfl⟩
  refine preservesCfg_ite _ ?_ ?_
  · refine preservesCfg_bind (preservesCfg_csnSet env false) fun _ => ?_
    refine preservesCfg_bind (preservesCfg_spiWrite env _) fun _ => ?_
    refine preservesCfg_bind (preservesCfg_spiTransfer env _) fun buffer => ?_
    refine preservesCfg_bind (preservesCfg_csnSet env true) fun _ => ?_
    exact preservesCfg_bind (preservesCfg_pure _) fun y => hrest y
  · exact preservesCfg_bind (preservesCfg_pure _) fun y => hrest y

theorem send_inv (env : Env) (h : allOk env) (fuel : Nat) (data : List Nat)
    (s : St) (hcsn : s.csn = true) (htr : wellFramed s.trace = true) :
    csnIdle (send env fuel data s) := by
  unfold send
  simp only [bind_def, M.bind, get_status_eq env h s]
  have hs1tr : wellFramed (s.trace ++
      rFrame Memory.STATUS (env.read (s.t + 2) 0)) = true := by
    simp [wellFramed_append, htr, wellFramed_rFrame]
  obtain ⟨hoc, hc2, ht2⟩ := sendPoll_inv env h fuel
    { s with
      t := s.t + 4,
      csn := true,
      trace := s.trace ++ rFrame Memory.STATUS (env.read (s.t + 2) 0) } rfl hs1tr
  rcases hsp : sendPoll env fuel
    { s with
      t := s.t + 4,
      csn := true,
      trace := s.trace ++ rFrame Memory.STATUS (env.read (s.t + 2) 0) } with ⟨o, s2⟩
  rw [hsp] at hoc hc2 ht2
  rcases hoc with h1 | h1 <;> subst h1
  · simp only [ceSet_eq env h, power_up_tx_eq env h, csnSet_eq env h,
      spiWrite_eq env h, M.bind, csnIdle]
    simp only [wellFramed] at ht2
    simp [wellFramed, wFrame] at ht2 ⊢
    exact fun x hx => ht2 x hx
  · exact ⟨hc2, ht2⟩

theorem wellFramed_append_of (a b : List Ev)
    (ha : wellFramed a = true) (hb : wellFramed b = true) :
    wellFramed (a ++ b) = true := by
  simp [wellFramed_append, ha, hb]

theorem wellFramed_configFixedTrace (s : St) :
    wellFramed (configFixedTrace s) = true := by
  simp only [configFixedTrace, wellFramed_append, wellFramed_wFrame]
  decide

theorem wellFramed_configDynTrace (s : St) :
    wellFramed (configDynTrace s) = true := by
  simp only [configDynTrace, wellFramed_append, wellFramed_wFrame]
  decide

/-! ### Claim theorems -/

/-- C1: in dynamic-payload mode (`payload_size = 0`) the feature-register
write inside `config` can fail with an SPI error, yet `config` still
returns `Ok(())`: the source drops the two dynamic-payload `Result`s
instead of propagating them with the `?` operator.  The first conjunct
evaluates the failing inner write from the state `config` reaches it in;
the second evaluates the whole `config` call, which succeeds anyway. -/
theorem config_swallows_dynamic_write_failure :
    (config_register envFeatureFail Memory.FEATURE (1 <<< BitMnemonic.EN_DPL)
        ((config_register envFeatureFail Memory.RF_CH 76 (init 76 0)).2)).1 =
      Outcome.err Error.spi ∧
    (config envFeatureFail (init 76 0)).1 = Outcome.ok () := by
  exact ⟨rfl, rfl⟩

/-- C2 counterexample: a `get_status` call whose SPI write of the
read-instruction opcode fails returns `Err(Spi)` with chip-select still
driven low, although it was high on entry — the early `?` return skips
`csn.set_high`. -/
theorem get_status_leaves_csn_low :
    (init 0 1).csn = true ∧
    (get_status envSpiFail1 (init 0 1)).1 = Outcome.err Error.spi ∧
    (get_status envSpiFail1 (init 0 1)).2.csn = false := by
  exact ⟨rfl, rfl, rfl⟩

/-- C2 (amended): on every execution in which all GPIO and SPI
primitives succeed (and, for `get_data`, the buffer is long enough to
avoid the panic), each driver operation started with chip-select high
finishes with chip-select high, and every SPI exchange it issues happens
inside a chip-select-low frame. -/
theorem csn_idle_across_operations (env : Env) (h : allOk env) (s : St)
    (hcsn : s.csn = true) (htr : wellFramed s.trace = true)
    (fuel : Nat) (data addr buf : List Nat) :
    csnIdle (config env s) ∧
    csnIdle (get_status env s) ∧
    csnIdle (is_sending env s) ∧
    csnIdle (data_ready env s) ∧
    csnIdle (send env fuel data s) ∧
    csnIdle (set_raddr env addr s) ∧
    csnIdle (set_taddr env addr s) ∧
    csnIdle (power_down env s) ∧
    (s.payload_size ≠ 0 → s.payload_size ≤ buf.length →
      csnIdle (get_data env buf s)) ∧
    (s.payload_size = 0 → env.read (s.t + 2) 0 ≤ buf.length →
      csnIdle (get_data env buf s)) := by
  refine ⟨?_, ?_, ?_, ?_, ?_, ?_, ?_, ?_, ?_, ?_⟩
  · by_cases hp : s.payload_size = 0
    · rw [config_eq_dyn env h s hp]
      exact ⟨rfl, wellFramed_append_of _ _ htr (wellFramed_configDynTrace s)⟩
    · rw [config_eq_fixed env h s hp]
      exact ⟨rfl, wellFramed_append_of _ _ htr (wellFramed_configFixedTrace s)⟩
  · rw [get_status_eq env h s]
    exact ⟨rfl, wellFramed_append_of _ _ htr (wellFramed_rFrame _ _)⟩
  · by_cases hflag : s.tx_power_status = true
    · by_cases hbit : env.read (s.t + 2) 0 &&&
          ((1 <<< BitMnemonic.TX_DS) ||| (1 <<< BitMnemonic.MAX_RT)) = 0
      · rw [is_sending_eq_inflight env h s hflag hbit]
        exact ⟨rfl, wellFramed_append_of _ _ htr (wellFramed_rFrame _ _)⟩
      · rw [is_sending_eq_resolved env h s hflag hbit]
        exact ⟨rfl, wellFramed_append_of _ _ htr (by
          simp only [wellFramed_append, wellFramed_rFrame, wellFramed_wFrame]
          decide)⟩
    · have hflag0 : s.tx_power_status = false := by
        cases hb : s.tx_power_status
        · rfl
        · exact absurd hb hflag
      rw [is_sending_eq_idle env s hflag0]
      exact ⟨hcsn, htr⟩
  · by_cases hbit : env.read (s.t + 2) 0 &&& (1 <<< BitMnemonic.RX_DR) = 0
    · rw [data_ready_eq_fifo env h s hbit]
      exact ⟨rfl, wellFramed_append_of _ _ htr (by
        simp only [wellFramed_append, wellFramed_rFrame]
        decide)⟩
    · rw [data_ready_eq_rxdr env h s hbit]
      exact ⟨rfl, wellFramed_append_of _ _ htr (wellFramed_rFrame _ _)⟩
  · exact send_inv env h fuel data s hcsn htr
  · rw [set_raddr_eq env h addr s]
    exact ⟨rfl, wellFramed_append_of _ _ htr (by
      simp only [wellFramed_append, wellFramed_wmFrame]
      decide)⟩
  · rw [set_taddr_eq env h addr s]
    exact ⟨rfl, wellFramed_append_of _ _ htr (by
      simp only [wellFramed_append, wellFramed_wmFrame]
      decide)⟩
  · rw [power_down_eq env h s]
    exact ⟨rfl, wellFramed_append_of _ _ htr (by
      simp only [wellFramed_append, wellFramed_wFrame]
      decide)⟩
  · intro hp hb
    rw [get_data_eq_fixed env h buf s hp hb]
    exact ⟨rfl, wellFramed_append_of _ _ htr (by
      simp only [wellFramed_append, wellFramed_wFrame]
      simp [wellFramed])⟩
  · intro hp hb
    rw [get_data_eq_dyn env h buf s hp hb]
    exact ⟨rfl, wellFramed_append_of _ _ htr (by
      simp only [wellFramed_append, wellFramed_wFrame]
      simp [wellFramed])⟩

/-- C2 witness: the amended invariant instantiated at the all-success
environment and the post-construction state. -/
theorem csn_idle_across_operations_witness :
    allOk okEnv ∧ csnIdle (config okEnv (init 76 32)) :=
  ⟨fun _ => rfl,
   (csn_idle_across_operations okEnv (fun _ => rfl) (init 76 32) rfl rfl
     0 [] [] []).1⟩

/-- C3: `is_sending` returns false immediately, leaving the state (and
so the bus trace) untouched, when the transmitting flag is clear; when
the flag is set it reads the status register once, and either transitions
back to receive power mode and returns false (TX-data-sent or
max-retransmits bit set) or returns true with the flag still set. -/
theorem is_sending_behaviour :
    (∀ (env : Env) (s : St), s.tx_power_status = false →
      is_sending env s = (Outcome.ok false, s)) ∧
    (∀ (env : Env), allOk env → ∀ s : St, s.tx_power_status = true →
      (env.read (s.t + 2) 0 &&&
          ((1 <<< BitMnemonic.TX_DS) ||| (1 <<< BitMnemonic.MAX_RT)) ≠ 0 →
        is_sending env s =
          (Outcome.ok false,
           { s with
             tx_power_status := false,
             t := s.t + 14,
             csn := true,
             ce := true,
             trace := s.trace ++
               (rFrame Memory.STATUS (env.read (s.t + 2) 0) ++
                ([Ev.gpio Pin.ce false] ++
                 wFrame Memory.CONFIG (MIRF_CONFIG |||
                   ((1 <<< BitMnemonic.PWR_UP) ||| (1 <<< BitMnemonic.PRIM_RX))) ++
                 [Ev.gpio Pin.ce true] ++
                 wFrame Memory.STATUS
                   ((1 <<< BitMnemonic.TX_DS) ||| (1 <<< BitMnemonic.MAX_RT)))) })) ∧
      (env.read (s.t + 2) 0 &&&
          ((1 <<< BitMnemonic.TX_DS) ||| (1 <<< BitMnemonic.MAX_RT)) = 0 →
        is_sending env s =
          (Outcome.ok true,
           { s with
             t := s.t + 4,
             csn := true,
             trace := s.trace ++ rFrame Memory.STATUS (env.read (s.t + 2) 0) }))) :=
  ⟨fun env s hflag => is_sending_eq_idle env s hflag,
   fun env h s hflag =>
     ⟨fun hbit => is_sending_eq_resolved env h s hflag hbit,
      fun hbit => is_sending_eq_inflight env h s hflag hbit⟩⟩

/-- C3 witness: on a freshly constructed driver (flag clear) `is_sending`
returns false with the state unchanged. -/
theorem is_sending_behaviour_witness :
    (init 3 32).tx_power_status = false ∧
    is_sending okEnv (init 3 32) = (Outcome.ok false, init 3 32) :=
  ⟨rfl, is_sending_behaviour.1 okEnv (init 3 32) rfl⟩

/-- C4: for every all-success environment, channel 0–125 and non-zero
payload size, `config` run from the post-construction state issues
exactly the sequence: RF-channel write, pipe-0 payload-width write,
pipe-1 payload-width write, the power-up-receive register sequence, and
a flush-RX command — `configFixedTrace` lists these frames in order. -/
theorem config_fixed_sequence (env : Env) (h : allOk env) (c p : Nat)
    (hc : c ≤ 125) (hp : p ≠ 0) :
    config env (init c p) =
      (Outcome.ok (), { init c p with
                        t := 25,
                        csn := true,
                        ce := true,
                        trace := configFixedTrace (init c p) }) := by
  have he := config_eq_fixed env h (init c p) hp
  simpa [init] using he

/-- C4 witness: the sequence at channel 76, payload size 32. -/
theorem config_fixed_sequence_witness :
    allOk okEnv ∧ 76 ≤ 125 ∧ (32 : Nat) ≠ 0 ∧
    (config okEnv (init 76 32)).1 = Outcome.ok () ∧
    (config okEnv (init 76 32)).2.trace = configFixedTrace (init 76 32) := by
  refine ⟨fun _ => rfl, by decide, by decide, ?_, ?_⟩ <;>
    rw [config_fixed_sequence okEnv (fun _ => rfl) 76 32 (by decide) (by decide)]

/-- C5: `get_data` in fixed-payload mode reads exactly `payload_size`
bytes with no payload-width query (the trace holds a single read-payload
frame), then acknowledges by writing the RX-data-ready bit to the status
register and returns the byte count; in dynamic mode it first issues the
payload-width query and then reads exactly the queried number of bytes
before the same acknowledgement. -/
theorem get_data_modes (env : Env) (h : allOk env) (s : St) (buf : List Nat) :
    (s.payload_size ≠ 0 → s.payload_size ≤ buf.length →
      get_data env buf s =
        (Outcome.ok (s.payload_size,
           (List.range s.payload_size).map (env.read (s.t + 2)) ++
             buf.drop s.payload_size),
         { s with
           t := s.t + 8,
           csn := true,
           trace := s.trace ++
             ([Ev.gpio Pin.csn false,
               Ev.write false [Instruction.R_RX_PAYLOAD],
               Ev.transfer false (buf.take s.payload_size)
                 ((List.range s.payload_size).map (env.read (s.t + 2))),
               Ev.gpio Pin.csn true] ++
              wFrame Memory.STATUS (1 <<< BitMnemonic.RX_DR)) })) ∧
    (s.payload_size = 0 → env.read (s.t + 2) 0 ≤ buf.length →
      get_data env buf s =
        (Outcome.ok (env.read (s.t + 2) 0,
           (List.range (env.read (s.t + 2) 0)).map (env.read (s.t + 6)) ++
             buf.drop (env.read (s.t + 2) 0)),
         { s with
           t := s.t + 12,
           csn := true,
           trace := s.trace ++
             ([Ev.gpio Pin.csn false,
               Ev.write false [Instruction.R_RX_PL_WID],
               Ev.transfer false [0] [env.read (s.t + 2) 0],
               Ev.gpio Pin.csn true,
               Ev.gpio Pin.csn false,
               Ev.write false [Instruction.R_RX_PAYLOAD],
               Ev.transfer false (buf.take (env.read (s.t + 2) 0))
                 ((List.range (env.read (s.t + 2) 0)).map (env.read (s.t + 6))),
               Ev.gpio Pin.csn true] ++
              wFrame Memory.STATUS (1 <<< BitMnemonic.RX_DR)) })) :=
  ⟨fun hp hb => get_data_eq_fixed env h buf s hp hb,
   fun hp hb => get_data_eq_dyn env h buf s hp hb⟩

/-- C5 witness: fixed mode with payload size 2 and a 3-byte buffer. -/
theorem get_data_modes_witness :
    allOk okEnv ∧
    (get_data okEnv [7, 7, 7] (init 5 2)).1 =
      Outcome.ok (2, (List.range 2).map (okEnv.read 2) ++ [7]) := by
  refine ⟨fun _ => rfl, ?_⟩
  rw [(get_data_modes okEnv (fun _ => rfl) (init 5 2) [7, 7, 7]).1
    (by decide) (by decide)]
  rfl

/-- C6: `get_data` reaches the out-of-bounds slice (modelled as the
`panicked` outcome) exactly when the buffer is shorter than the
determined payload length — the configured `payload_size` in fixed mode,
the chip-reported width in dynamic mode — and stays in bounds (returning
normally under an all-success environment) whenever the buffer is at
least that long. -/
theorem get_data_bounds (env : Env) (h : allOk env) (s : St) (buf : List Nat) :
    (s.payload_size ≠ 0 → buf.length < s.payload_size →
      (get_data env buf s).1 = Outcome.panicked) ∧
    (s.payload_size ≠ 0 → s.payload_size ≤ buf.length →
      (get_data env buf s).1 ≠ Outcome.panicked) ∧
    (s.payload_size = 0 → buf.length < env.read (s.t + 2) 0 →
      (get_data env buf s).1 = Outcome.panicked) ∧
    (s.payload_size = 0 → env.read (s.t + 2) 0 ≤ buf.length →
      (get_data env buf s).1 ≠ Outcome.panicked) := by
  refine ⟨?_, ?_, ?_, ?_⟩
  · intro hp hb
    rw [get_data_eq_fixed_panic env h buf s hp hb]
  · intro hp hb
    rw [get_data_eq_fixed env h buf s hp hb]
    simp
  · intro hp hb
    rw [get_data_eq_dyn_panic env h buf s hp hb]
  · intro hp hb
    rw [get_data_eq_dyn env h buf s hp hb]
    simp

/-- C6 witness: a 1-byte buffer against a fixed payload size of 2
panics; a 2-byte buffer stays in bounds. -/
theorem get_data_bounds_witness :
    allOk okEnv ∧
    (get_data okEnv [9] (init 5 2)).1 = Outcome.panicked ∧
    (get_data okEnv [9, 9] (init 5 2)).1 ≠ Outcome.panicked := by
  refine ⟨fun _ => rfl, ?_, ?_⟩
  · exact (get_data_bounds okEnv (fun _ => rfl) (init 5 2) [9]).1
      (by decide) (by decide)
  · exact (get_data_bounds okEnv (fun _ => rfl) (init 5 2) [9, 9]).2.1
      (by decide) (by decide)

/-- C7: `data_ready` returns true exactly when the status register's
RX-data-ready bit is set or the FIFO-status register's RX-FIFO-empty bit
is clear, and false exactly when the RX-data-ready bit is clear and the
FIFO-status read reports the RX FIFO empty. -/
theorem data_ready_iff (env : Env) (h : allOk env) (s : St) :
    (data_ready env s).1 =
      Outcome.ok (decide
        (env.read (s.t + 2) 0 &&& (1 <<< BitMnemonic.RX_DR) ≠ 0 ∨
         env.read (s.t + 6) 0 &&& (1 <<< BitMnemonic.RX_EMPTY) = 0)) := by
  by_cases hbit : env.read (s.t + 2) 0 &&& (1 <<< BitMnemonic.RX_DR) = 0
  · rw [data_ready_eq_fifo env h s hbit]
    simp [hbit]
  · rw [data_ready_eq_rxdr env h s hbit]
    simp [hbit]

/-- C7 witness: with all-zero reads the RX-data-ready bit is clear and
the RX-FIFO-empty bit is clear, so `data_ready` reports true. -/
theorem data_ready_iff_witness :
    allOk okEnv ∧ (data_ready okEnv (init 0 1)).1 = Outcome.ok true := by
  refine ⟨fun _ => rfl, ?_⟩
  rw [data_ready_iff okEnv (fun _ => rfl) (init 0 1)]
  rfl

/-- C8: `send` started with the transmitting flag set polls the status
register with no bound other than the fuel: it fails to leave the poll
loop (outcome `spin`) exactly when no status read among the first `fuel`
reads the TX-data-sent or max-retransmits bit set; in particular if no
status read ever reports either bit it spins for every fuel, i.e. the
source's unfueled loop blocks indefinitely.  When the loop does exit
normally, the transmitting flag has been cleared at that point. -/
theorem send_poll_unbounded (env : Env) (h : allOk env) (c p : Nat)
    (data : List Nat) :
    (∀ fuel : Nat,
      ((send env fuel data (initTx c p)).1 = Outcome.spin ↔
        ∀ k < fuel, env.read (4 * k + 6) 0 &&&
          ((1 <<< BitMnemonic.TX_DS) ||| (1 <<< BitMnemonic.MAX_RT)) = 0)) ∧
    ((∀ k : Nat, env.read (4 * k + 6) 0 &&&
        ((1 <<< BitMnemonic.TX_DS) ||| (1 <<< BitMnemonic.MAX_RT)) = 0) →
      ∀ fuel : Nat, (send env fuel data (initTx c p)).1 = Outcome.spin) ∧
    (∀ (fuel : Nat) (s : St), s.tx_power_status = true →
      (sendPoll env fuel s).1 = Outcome.ok () →
      (sendPoll env fuel s).2.tx_power_status = false) := by
  have main : ∀ fuel : Nat,
      ((send env fuel data (initTx c p)).1 = Outcome.spin ↔
        ∀ k < fuel, env.read (4 * k + 6) 0 &&&
          ((1 <<< BitMnemonic.TX_DS) ||| (1 <<< BitMnemonic.MAX_RT)) = 0) := by
    intro fuel
    unfold send
    simp only [bind_def, M.bind, get_status_eq env h (initTx c p)]
    have hs1tr : wellFramed ((initTx c p).trace ++
        rFrame Memory.STATUS (env.read ((initTx c p).t + 2) 0)) = true := by
      simp only [initTx, init]
      simpa using wellFramed_rFrame Memory.STATUS (env.read (0 + 2) 0)
    obtain ⟨hoc, hc2, ht2⟩ := sendPoll_inv env h fuel
      { initTx c p with
        t := (initTx c p).t + 4,
        csn := true,
        trace := (initTx c p).trace ++
          rFrame Memory.STATUS (env.read ((initTx c p).t + 2) 0) } rfl hs1tr
    have hiff := sendPoll_spin_iff env h fuel
      { initTx c p with
        t := (initTx c p).t + 4,
        csn := true,
        trace := (initTx c p).trace ++
          rFrame Memory.STATUS (env.read ((initTx c p).t + 2) 0) } rfl
    rcases hsp : sendPoll env fuel
      { initTx c p with
        t := (initTx c p).t + 4,
        csn := true,
        trace := (initTx c p).trace ++
          rFrame Memory.STATUS (env.read ((initTx c p).t + 2) 0) } with ⟨o, s2⟩
    rw [hsp] at hoc hiff
    dsimp only [initTx, init] at hiff ⊢
    have harith : ∀ k : Nat, 0 + 4 + (4 * k + 2) = 4 * k + 6 := fun k => by ring
    have harith2 : ∀ k : Nat, 0 + 2 = 2 := fun k => by ring
    simp only [harith, Nat.zero_add] at hiff ⊢
    rcases hoc with h1 | h1 <;> subst h1
    · simp only [ceSet_eq env h, power_up_tx_eq env h, csnSet_eq env h,
        spiWrite_eq env h, M.bind]
      constructor
      · intro hfalse
        exact absurd hfalse (by simp)
      · intro hr
        exact absurd (hiff.mpr hr) (by simp)
    · exact hiff
  refine ⟨main, fun hall fuel => (main fuel).mpr (fun k _ => hall k),
    sendPoll_ok_flag env h⟩

/-- C8 witness: with an environment whose status reads never report the
bits, `send` from a transmitting state spins at fuel 3. -/
theorem send_poll_unbounded_witness :
    allOk okEnv ∧ (send okEnv 3 [1] (initTx 0 1)).1 = Outcome.spin :=
  ⟨fun _ => rfl,
   ((send_poll_unbounded okEnv (fun _ => rfl) 0 1 [1]).1 3).mpr
     (fun k _ => by simp [okEnv])⟩

/-- C9: `set_raddr` brackets its single pipe-1 address write with
chip-enable low before and high after, while `set_taddr` writes the
address to the pipe-0 receive-address register and the transmit-address
register and issues no chip-enable event at all. -/
theorem address_ops_ce (env : Env) (h : allOk env) (addr : List Nat) (s : St) :
    set_raddr env addr s =
      (Outcome.ok (), { s with
                        t := s.t + 6,
                        csn := true,
                        ce := true,
                        trace := s.trace ++
                          ([Ev.gpio Pin.ce false] ++
                           wmFrame Memory.RX_ADDR_P1 addr ++
                           [Ev.gpio Pin.ce true]) }) ∧
    set_taddr env addr s =
      (Outcome.ok (), { s with
                        t := s.t + 8,
                        csn := true,
                        trace := s.trace ++
                          (wmFrame Memory.RX_ADDR_P0 addr ++
                           wmFrame Memory.TX_ADDR addr) }) ∧
    hasCeEvent (wmFrame Memory.RX_ADDR_P0 addr ++ wmFrame Memory.TX_ADDR addr) =
      false :=
  ⟨set_raddr_eq env h addr s, set_taddr_eq env h addr s,
   by simp [hasCeEvent, wmFrame]⟩

/-- C9 witness: with a concrete 5-byte address, `set_taddr`'s whole
trace contains no chip-enable event and `set_raddr` ends with
chip-enable high. -/
theorem address_ops_ce_witness :
    allOk okEnv ∧
    hasCeEvent ((set_taddr okEnv [1, 2, 3, 4, 5] (init 0 1)).2.trace) = false ∧
    (set_raddr okEnv [1, 2, 3, 4, 5] (init 0 1)).2.ce = true := by
  obtain ⟨h1, h2, h3⟩ :=
    address_ops_ce okEnv (fun _ => rfl) [1, 2, 3, 4, 5] (init 0 1)
  refine ⟨fun _ => rfl, ?_, ?_⟩
  · rw [h2]
    simpa using h3
  · rw [h1]

/-- C10: none of the driver operations changes the `channel` or
`payload_size` fields of the driver struct — among its mutable fields
only the transmitting flag is ever written. -/
theorem ops_preserve_cfg (env : Env) (fuel : Nat) (data addr buf : List Nat) :
    preservesCfg (config env) ∧
    preservesCfg (send env fuel data) ∧
    preservesCfg (is_sending env) ∧
    preservesCfg (data_ready env) ∧
    preservesCfg (get_data env buf) ∧
    preservesCfg (get_status env) ∧
    preservesCfg (set_raddr env addr) ∧
    preservesCfg (set_taddr env addr) ∧
    preservesCfg (power_down env) :=
  ⟨preservesCfg_config env, preservesCfg_send env fuel data,
   preservesCfg_is_sending env, preservesCfg_data_ready env,
   preservesCfg_get_data env buf, preservesCfg_get_status env,
   preservesCfg_set_raddr env addr, preservesCfg_set_taddr env addr,
   preservesCfg_power_down env⟩

end NRF24L01
